import Mathlib

/-!
Shallow embedding of the HMS front-end API client and page handlers
(`src/api.ts`, `BookAppointment`, `Patients`, `Login.tsx`) together with
theorems about token persistence, the request interceptor, form validation,
error surfacing and the age calculation.

JavaScript conventions used throughout the embedding:
- `localStorage` is a partial map from string keys to string values,
  modelled as `String → Option String`; `getItem` returns `none` for null.
- JS truthiness on a nullable string (`if (token)`) is false exactly for
  null and the empty string; on a nullable number (`!selectedPatient`) it
  is false exactly for null and 0.
- `a || b` on strings returns `b` when `a` is absent or empty.
-/

namespace HMS

/-! ## Browser storage (window.localStorage), restricted to string keys/values -/

def Store : Type := String → Option String

def emptyStore : Store := fun _ => none

def setItem (s : Store) (k v : String) : Store :=
  fun k2 => if k2 = k then some v else s k2

def removeItem (s : Store) (k : String) : Store :=
  fun k2 => if k2 = k then none else s k2

def getItem (s : Store) (k : String) : Option String := s k

/-! ## tokenUtils (src/api.ts) -/

/-- `tokenUtils.setTokens`: writes the access token under key `authToken`
and the refresh token under key `refreshToken`. -/
def setTokens (s : Store) (access refresh : String) : Store :=
  setItem (setItem s "authToken" access) "refreshToken" refresh

/-- `tokenUtils.getAccessToken`: `localStorage.getItem` of key `authToken`. -/
def getAccessToken (s : Store) : Option String := getItem s "authToken"

/-- `tokenUtils.getRefreshToken`: `localStorage.getItem` of key `refreshToken`. -/
def getRefreshToken (s : Store) : Option String := getItem s "refreshToken"

/-- `tokenUtils.removeTokens`: removes both keys. -/
def removeTokens (s : Store) : Store :=
  removeItem (removeItem s "authToken") "refreshToken"

/-- `tokenUtils.isAuthenticated`: reads key `authToken` and applies the JS
double-negation `!!token`, which is false exactly for null and for the
empty string. The token content is never inspected beyond that. -/
def isAuthenticated (s : Store) : Bool :=
  match getItem s "authToken" with
  | none => false
  | some t => t ≠ ""

/-! ## The axios request interceptor (src/api.ts) -/

/-- The part of an outgoing axios request config relevant to the
interceptor: the target url, an optional JSON body, and the
Authorization header (absent by default). -/
structure RequestConfig where
  url : String
  data : Option String
  authorization : Option String
deriving Repr, DecidableEq

/-- `apiClient.interceptors.request`: reads `localStorage.getItem` of
`authToken`; under JS truthiness (`if (token)`) a null or empty token
leaves the config untouched, otherwise the `Authorization` header is set
to the template literal `Bearer ${token}`. The interceptor always returns
a config — it never blocks or short-circuits the request. -/
def requestInterceptor (s : Store) (config : RequestConfig) : RequestConfig :=
  match getItem s "authToken" with
  | none => config
  | some t =>
      if t = "" then config
      else { config with authorization := some ("Bearer " ++ t) }

/-- A store holding an empty-string access token: the key is present but
its value is falsy in JS. -/
def storeWithEmptyToken : Store := setItem emptyStore "authToken" ""

/-- A store holding the access token `tok`. -/
def storeWithTok : Store := setItem emptyStore "authToken" "tok"

/-- A request config with no Authorization header attached yet, as built
by the resource functions (they only set Content-Type). -/
def cfg0 : RequestConfig :=
  { url := "/patients/", data := none, authorization := none }

/-! ## Calendar dates and the age calculation (Patients page) -/

/-- A calendar date. JS `Date` exposes `getFullYear`, `getMonth` (0-based)
and `getDate`; we use 1-based months, which is harmless because the code
only compares months and takes their difference. -/
structure SimpleDate where
  year : Nat
  month : Nat
  day : Nat
deriving Repr, DecidableEq

/-- `calculateAge` from the Patients page:
year difference, decremented when the month difference is negative, or
zero with the day of the month not yet reached. -/
def calculateAge (birth today : SimpleDate) : Int :=
  let age : Int := (today.year : Int) - (birth.year : Int)
  let monthDiff : Int := (today.month : Int) - (birth.month : Int)
  if monthDiff < 0 ∨ (monthDiff = 0 ∧ (today.day : Int) < (birth.day : Int)) then
    age - 1
  else
    age

/-- The birthday (month/day of `birth`) has not yet occurred in the year
of `today`; phrased directly on calendar fields. -/
def birthdayNotYetOccurred (birth today : SimpleDate) : Bool :=
  today.month < birth.month || (today.month == birth.month && today.day < birth.day)

/-! ## Date formatting for the booking request -/

/-- Two-digit zero padding, as produced inside an ISO date string. -/
def pad2 (n : Nat) : String :=
  if n < 10 then "0" ++ toString n else toString n

/-- Four-digit zero padding for the year field of an ISO date string. -/
def pad4 (n : Nat) : String :=
  if n < 10 then "000" ++ toString n
  else if n < 100 then "00" ++ toString n
  else if n < 1000 then "0" ++ toString n
  else toString n

/-- `date.toISOString().split('T')[0]`: the `YYYY-MM-DD` prefix of the
ISO timestamp of the date. -/
def formatISODate (d : SimpleDate) : String :=
  pad4 d.year ++ "-" ++ pad2 d.month ++ "-" ++ pad2 d.day

/-! ## JS helpers -/

/-- JS `String.prototype.trim`: strips leading and trailing whitespace.
Embedded directly over the character list so that it reduces in the
kernel (the core `String.trim` recurses over byte positions and does
not). -/
def jsTrim (s : String) : String :=
  ⟨((s.data.dropWhile Char.isWhitespace).reverse.dropWhile Char.isWhitespace).reverse⟩

/-- JS truthiness of a nullable number: false for null and for 0. -/
def jsTruthyNum (v : Option Int) : Bool :=
  match v with
  | none => false
  | some n => n ≠ 0

/-- JS `a || b` where `a` is a possibly absent string: returns `b` when
`a` is absent or empty. -/
def jsOrElse (a : Option String) (b : String) : String :=
  match a with
  | none => b
  | some s => if s = "" then b else s

/-- JS `reason || undefined`: the empty string collapses to undefined. -/
def jsOrUndefined (s : String) : Option String :=
  if s = "" then none else some s

/-! ## Error responses (axios `error.response?.data`) -/

/-- The fields of a failure body the pages look at. -/
structure ErrorData where
  detail : Option String
  message : Option String
  error : Option String
deriving Repr, DecidableEq

/-- `error.response?.data`: `none` models a transport failure with no
response body at all. -/
def ApiError : Type := Option ErrorData

/-- Optional-chaining access `error.response?.data?.f`. -/
def respField (e : ApiError) (f : ErrorData → Option String) : Option String :=
  match e with
  | none => none
  | some d => f d

/-- Login page catch block:
`error.response?.data?.detail || error.response?.data?.message || "Invalid credentials. Please try again."`. -/
def loginErrorMessage (e : ApiError) : String :=
  jsOrElse (respField e ErrorData.detail)
    (jsOrElse (respField e ErrorData.message) "Invalid credentials. Please try again.")

/-- BookAppointment submit catch block:
`error.response?.data?.error || error.response?.data?.message || 'Failed to book appointment. Please try again.'`. -/
def bookingErrorMessage (e : ApiError) : String :=
  jsOrElse (respField e ErrorData.error)
    (jsOrElse (respField e ErrorData.message) "Failed to book appointment. Please try again.")

/-! ## Data model (src/api.ts interfaces) -/

/-- Gender enum used by Patient and Doctor. -/
inductive Gender where
  | male
  | female
deriving Repr, DecidableEq

/-- `EmergencyContact` interface. -/
structure EmergencyContact where
  contact_id : Int
  patient : Int
  first_name : String
  last_name : String
  phone_number : String
  relationship : String
deriving Repr, DecidableEq

/-- `Patient` interface. -/
structure Patient where
  patient_id : Int
  first_name : Option String
  last_name : Option String
  date_of_birth : String
  gender : Gender
  phone_number : Option String
  email : Option String
  address : String
  marital_status : Option String
  occupation : Option String
  emergency_contact : Option EmergencyContact
deriving Repr, DecidableEq

/-- `Doctor` interface. -/
structure Doctor where
  doctor_id : Int
  first_name : String
  last_name : String
  date_of_birth : String
  specialty : String
  gender : Gender
  phone_number : Option String
  email : Option String
  address : String
deriving Repr, DecidableEq

/-- `PatientsResponse` interface. -/
structure PatientsResponse where
  patients : List Patient
  patient_count : Nat
deriving Repr, DecidableEq

/-- `DoctorsResponse` interface. -/
structure DoctorsResponse where
  doctors : List Doctor
  doctor_count : Nat
deriving Repr, DecidableEq

/-- `Appointment` interface (the server-assigned id included). -/
structure Appointment where
  appointment_id : Int
  patient : Int
  doctor : Int
  date : String
  time : String
  reason : Option String
  status : Bool
deriving Repr, DecidableEq

/-- `AuthResponse` interface. -/
structure AuthResponse where
  access : String
  refresh : String
deriving Repr, DecidableEq

/-- The body passed to `patientsAPI.appointments.create`
(`Omit<Appointment, 'appointment_id'>`). -/
structure AppointmentCreateBody where
  patient : Int
  doctor : Int
  date : String
  time : String
  reason : Option String
  status : Bool
deriving Repr, DecidableEq

/-! ## BookAppointment page (handleSubmit) -/

/-- The form state of the booking page at submit time. -/
structure BookingForm where
  selectedPatient : Option Int
  selectedDoctor : Option Int
  date : Option SimpleDate
  timeStr : String
  reason : String
deriving Repr, DecidableEq

/-- The four field-level validation error strings. -/
structure ValidationErrors where
  patientError : String
  doctorError : String
  dateError : String
  timeError : String
deriving Repr, DecidableEq

/-- The validation prefix of `handleSubmit`: each check writes its error
message or clears it, and a failing check forces `isValid` to false. -/
def bookingValidation (form : BookingForm) : ValidationErrors × Bool :=
  let isValid := true
  let (patientError, isValid) :=
    if !(jsTruthyNum form.selectedPatient) then ("Patient is required", false)
    else ("", isValid)
  let (doctorError, isValid) :=
    if !(jsTruthyNum form.selectedDoctor) then ("Doctor is required", false)
    else ("", isValid)
  let (dateError, isValid) :=
    if form.date.isNone then ("Date is required", false)
    else ("", isValid)
  let (timeError, isValid) :=
    if jsTrim form.timeStr = "" then ("Time is required", false)
    else ("", isValid)
  (⟨patientError, doctorError, dateError, timeError⟩, isValid)

/-- The request body built inside the `if (isValid)` branch: the non-null
assertions on patient, doctor and date are guarded by validation, the
date is rendered as `YYYY-MM-DD`, the empty reason collapses to
undefined, and `status` is always false. -/
def bookingRequest (form : BookingForm) : Option AppointmentCreateBody :=
  if (bookingValidation form).2 then
    match form.selectedPatient, form.selectedDoctor, form.date with
    | some p, some dr, some d =>
        some { patient := p
               doctor := dr
               date := formatISODate d
               time := form.timeStr
               reason := jsOrUndefined form.reason
               status := false }
    | _, _, _ => none
  else
    none

/-- The appointment-creation calls issued by one submit: one when the
form validates, none otherwise. -/
def bookingRequests (form : BookingForm) : List AppointmentCreateBody :=
  match bookingRequest form with
  | some b => [b]
  | none => []

/-- UI state of the booking page around the network call. -/
structure BookingUiState where
  submitting : Bool
  error : String
deriving Repr, DecidableEq

/-- The `if (isValid)` branch of `handleSubmit` given the outcome of the
creation call: `setSubmitting(true); setError('')`, then on success
navigate to `/appointments`, on failure surface `bookingErrorMessage`,
and in the `finally` block `setSubmitting(false)`. Returns the final UI
state and the navigation target, if any. -/
def bookingCall (outcome : Except ApiError Appointment) (st : BookingUiState) :
    BookingUiState × Option String :=
  let st := { st with submitting := true, error := "" }
  let (st, nav) :=
    match outcome with
    | Except.ok _ => (st, some "/appointments")
    | Except.error e => ({ st with error := bookingErrorMessage e }, none)
  ({ st with submitting := false }, nav)

/-- The observable result of one submit. -/
inductive BookingResult where
  | blocked (errors : ValidationErrors)
  | booked (sent : AppointmentCreateBody) (navigatedTo : String)
  | failed (sent : AppointmentCreateBody) (errorMessage : String)
deriving Repr, DecidableEq

/-- `handleSubmit` end to end: validation, then the call branch. -/
def runBooking (form : BookingForm) (outcome : Except ApiError Appointment) :
    BookingResult :=
  match bookingRequest form with
  | none => BookingResult.blocked (bookingValidation form).1
  | some req =>
      let (st, nav) := bookingCall outcome { submitting := false, error := "" }
      match nav with
      | some route => BookingResult.booked req route
      | none => BookingResult.failed req st.error

/-! ## Login page (onButtonClick, valid branch) and Patients page (fetchPatients) -/

/-- UI state of the login page around the network call. -/
structure LoginUiState where
  isLoading : Bool
  loginError : String
deriving Repr, DecidableEq

/-- The `if (isValid)` branch of `onButtonClick`: `setIsLoading(true)`,
then on success persist both tokens and navigate to `/dashboard`, on
failure surface `loginErrorMessage`, and in the `finally` block
`setIsLoading(false)`. Returns the final UI state, the token store, and
the navigation target, if any. -/
def loginCall (outcome : Except ApiError AuthResponse) (st : LoginUiState)
    (store : Store) : LoginUiState × Store × Option String :=
  let st := { st with isLoading := true }
  let (st, store, nav) :=
    match outcome with
    | Except.ok resp => (st, setTokens store resp.access resp.refresh, some "/dashboard")
    | Except.error e => ({ st with loginError := loginErrorMessage e }, store, none)
  ({ st with isLoading := false }, store, nav)

/-- UI state of the patients page around the fetch. -/
structure PatientsUiState where
  loading : Bool
  error : String
  patients : List Patient
deriving Repr, DecidableEq

/-- `fetchPatients`: `setLoading(true); setError('')`, then on success
store the patient list, on any failure set the fixed message
`Failed to fetch patients. Please try again.` without inspecting the
body, and in the `finally` block `setLoading(false)`. -/
def fetchPatientsCall (outcome : Except ApiError PatientsResponse)
    (st : PatientsUiState) : PatientsUiState :=
  let st := { st with loading := true, error := "" }
  let st :=
    match outcome with
    | Except.ok r => { st with patients := r.patients }
    | Except.error _ => { st with error := "Failed to fetch patients. Please try again." }
  { st with loading := false }

/-- The booking page `loadData` catch block likewise sets a fixed message
without inspecting the body. -/
def loadDataErrorMessage (_e : ApiError) : String :=
  "Failed to load patients and doctors"

/-! ## Backend list endpoints, modelled from the spec -/

/-- Modelled from the spec: the backend implementation of
`GET /patients/` and `GET /staff/doctors` is not part of this repository
(the client only declares `PatientsResponse` and `DoctorsResponse` and
casts the body). Per the spec, each list endpoint returns the stored
collection together with its count. -/
structure BackendState where
  storedPatients : List Patient
  storedDoctors : List Doctor
deriving Repr, DecidableEq

/-- Modelled from the spec: the successful body of `patientsAPI.getAll`,
the stored patients with their count. -/
def patientsGetAll (s : BackendState) : PatientsResponse :=
  { patients := s.storedPatients, patient_count := s.storedPatients.length }

/-- Modelled from the spec: the successful body of `doctorsAPI.getAll`,
the stored doctors with their count. -/
def doctorsGetAll (s : BackendState) : DoctorsResponse :=
  { doctors := s.storedDoctors, doctor_count := s.storedDoctors.length }

/-- Modelled from the spec: a mutation changes the backend state; reads
leave it untouched, so two reads with no intervening mutation observe the
same state. -/
def backendCreatePatient (s : BackendState) (p : Patient) : BackendState :=
  { s with storedPatients := s.storedPatients ++ [p] }

/-! ## Concrete inputs for the booking scenario -/

/-- The booking form of the concrete scenario: patient 5, doctor 2,
date 2024-12-15, time 10:00, empty reason. -/
def bookingFormScenario : BookingForm :=
  { selectedPatient := some 5
    selectedDoctor := some 2
    date := some ⟨2024, 12, 15⟩
    timeStr := "10:00"
    reason := "" }

/-- The body the concrete scenario must produce. -/
def bodyScenario : AppointmentCreateBody :=
  { patient := 5
    doctor := 2
    date := "2024-12-15"
    time := "10:00"
    reason := none
    status := false }

/-! ## Helper lemmas -/

/-- Closed form of `calculateAge`: the calendar-year difference, reduced
by one exactly when the birthday has not yet occurred in the year of
`today`. -/
theorem calculateAge_eq (birth today : SimpleDate) :
    calculateAge birth today =
      (today.year : Int) - (birth.year : Int) -
        (if birthdayNotYetOccurred birth today then 1 else 0) := by
  unfold calculateAge birthdayNotYetOccurred
  simp only [Bool.or_eq_true, Bool.and_eq_true, decide_eq_true_eq, beq_iff_eq]
  split_ifs with h1 h2 <;> push_neg at * <;> omega

/-- Closed form of the validation prefix of `handleSubmit`: each error
field is set exactly when its input is missing, and the submit is valid
exactly when all four inputs are present. -/
theorem bookingValidation_eq (form : BookingForm) :
    bookingValidation form =
      (⟨if jsTruthyNum form.selectedPatient then "" else "Patient is required",
        if jsTruthyNum form.selectedDoctor then "" else "Doctor is required",
        if form.date.isSome then "" else "Date is required",
        if jsTrim form.timeStr = "" then "Time is required" else ""⟩,
       jsTruthyNum form.selectedPatient && jsTruthyNum form.selectedDoctor &&
         form.date.isSome && !(jsTrim form.timeStr == "")) := by
  obtain ⟨p, dr, dt, t, r⟩ := form
  unfold bookingValidation
  cases dt <;>
  by_cases h1 : jsTruthyNum p <;>
  by_cases h2 : jsTruthyNum dr <;>
  by_cases h4 : jsTrim t = "" <;>
    simp_all [Option.isNone, Option.isSome]

/-! ## Claim theorems -/

/-- Claim C1: submitting the booking form with patient 5, doctor 2, the
date 2024-12-15, time `10:00` and an empty reason issues exactly one
creation call, with body patient 5, doctor 2, date `2024-12-15`, time
`10:00`, reason undefined and status false, and a successful response
navigates to `/appointments`, away from the booking view. -/
theorem booking_concrete_scenario :
    bookingRequests bookingFormScenario = [bodyScenario] ∧
    (∀ appt : Appointment,
      runBooking bookingFormScenario (Except.ok appt) =
        BookingResult.booked bodyScenario "/appointments") :=
  ⟨by decide, fun _ => rfl⟩

/-- Claim C2, counterexample: on the system date 2025-06-15, which is
later than 2024-06-15, the age computed for birth date 1990-06-15 is 35,
not 34, so the age is not 34 on "any later date". -/
theorem calculateAge_later_year_cex :
    calculateAge ⟨1990, 6, 15⟩ ⟨2025, 6, 15⟩ = 35 ∧ (35 : Int) ≠ 34 := by decide

/-- Claim C2, amended: for birth date 1990-06-15 the age is 33 on
2024-06-14 and 34 on 2024-06-15 or any later date within 2024; in
general the age is the calendar-year difference, decremented by one
exactly when the birthday has not yet occurred in the current year. -/
theorem calculateAge_spec :
    calculateAge ⟨1990, 6, 15⟩ ⟨2024, 6, 14⟩ = 33 ∧
    calculateAge ⟨1990, 6, 15⟩ ⟨2024, 6, 15⟩ = 34 ∧
    (∀ m d : Nat, (6 < m ∨ (m = 6 ∧ 15 ≤ d)) →
      calculateAge ⟨1990, 6, 15⟩ ⟨2024, m, d⟩ = 34) ∧
    (∀ birth today : SimpleDate,
      calculateAge birth today =
        (today.year : Int) - (birth.year : Int) -
          (if birthdayNotYetOccurred birth today then 1 else 0)) := by
  refine ⟨by decide, by decide, ?_, calculateAge_eq⟩
  intro m d h
  rw [calculateAge_eq]
  have hb : birthdayNotYetOccurred ⟨1990, 6, 15⟩ ⟨2024, m, d⟩ = false := by
    unfold birthdayNotYetOccurred
    simp only [Bool.or_eq_false_iff, Bool.and_eq_false_iff]
    constructor
    · simp only [decide_eq_false_iff_not, not_lt]; omega
    · rcases h with h | ⟨h1, h2⟩
      · left; simp only [beq_eq_false_iff_ne, ne_eq]; omega
      · right; simp only [decide_eq_false_iff_not, not_lt]; omega
  rw [hb]
  norm_num

/-- Claim C2, witness: the amended theorem applied on 2024-12-31, a later
date within 2024. -/
theorem calculateAge_spec_witness :
    calculateAge ⟨1990, 6, 15⟩ ⟨2024, 12, 31⟩ = 34 :=
  calculateAge_spec.2.2.1 12 31 (Or.inl (by norm_num))

/-- Claim C3, counterexample: a failed booking submission whose body
carries `detail := "X"` surfaces the generic booking fallback, not `X`,
because the booking page reads the `error` field, never `detail`. -/
theorem booking_detail_ignored_cex :
    bookingErrorMessage (some { detail := some "X", message := none, error := none }) =
      "Failed to book appointment. Please try again." ∧
    bookingErrorMessage (some { detail := some "X", message := none, error := none }) ≠
      "X" := by decide

/-- Claim C3, amended: only the login page prefers a `detail` field, then
`message`, then its generic fallback (also used when there is no response
body at all); the booking submission prefers the `error` field, then
`message`, then its own generic fallback; the patient-list fetch always
surfaces its fixed generic message without inspecting the body. -/
theorem error_surfacing_by_page :
    (∀ (e : ErrorData) (d : String) (st : LoginUiState) (store : Store),
        e.detail = some d → d ≠ "" →
        ((loginCall (Except.error (some e)) st store).1).loginError = d) ∧
    (∀ (e : ErrorData) (st : LoginUiState) (store : Store),
        e.detail = none → e.message = none →
        ((loginCall (Except.error (some e)) st store).1).loginError =
          "Invalid credentials. Please try again.") ∧
    (∀ (st : LoginUiState) (store : Store),
        ((loginCall (Except.error none) st store).1).loginError =
          "Invalid credentials. Please try again.") ∧
    (∀ (e : ErrorData) (v : String), e.error = some v → v ≠ "" →
        bookingErrorMessage (some e) = v) ∧
    (∀ (e : ErrorData), e.error = none → e.message = none →
        bookingErrorMessage (some e) =
          "Failed to book appointment. Please try again.") ∧
    (∀ (e : ApiError) (st : PatientsUiState),
        (fetchPatientsCall (Except.error e) st).error =
          "Failed to fetch patients. Please try again.") := by
  refine ⟨?_, ?_, ?_, ?_, ?_, ?_⟩
  · intro e d st store hd hne
    simp [loginCall, loginErrorMessage, respField, hd, jsOrElse, hne]
  · intro e st store hd hm
    simp [loginCall, loginErrorMessage, respField, hd, hm, jsOrElse]
  · intro st store
    simp [loginCall, loginErrorMessage, respField, jsOrElse]
  · intro e v hv hne
    simp [bookingErrorMessage, respField, hv, jsOrElse, hne]
  · intro e he hm
    simp [bookingErrorMessage, respField, he, hm, jsOrElse]
  · intro e st
    simp [fetchPatientsCall]

/-- Claim C3, witness: concrete failures through the login page (with a
detail body) and the booking message (with an error body). -/
theorem error_surfacing_by_page_witness :
    ((loginCall
        (Except.error (some { detail := some "No active account", message := none, error := none }))
        { isLoading := false, loginError := "" } emptyStore).1).loginError =
      "No active account" ∧
    bookingErrorMessage (some { detail := none, message := none, error := some "Slot taken" }) =
      "Slot taken" :=
  ⟨error_surfacing_by_page.1 _ "No active account" _ _ rfl (by decide),
   error_surfacing_by_page.2.2.2.1 _ "Slot taken" rfl (by decide)⟩

/-- Claim C4: the submit handler flags exactly the missing required
fields and clears the others, issues no creation call unless all four are
supplied, and when they are it issues the call with status false and the
date rendered as `YYYY-MM-DD`; a field is missing in the sense of the
code, that is JS-falsy (null or 0 for the pickers, null for the date, an
all-whitespace string for the time). -/
theorem appointment_form_validation (form : BookingForm) :
    ((bookingValidation form).1.patientError =
        if jsTruthyNum form.selectedPatient then "" else "Patient is required") ∧
    ((bookingValidation form).1.doctorError =
        if jsTruthyNum form.selectedDoctor then "" else "Doctor is required") ∧
    ((bookingValidation form).1.dateError =
        if form.date.isSome then "" else "Date is required") ∧
    ((bookingValidation form).1.timeError =
        if jsTrim form.timeStr = "" then "Time is required" else "") ∧
    (bookingRequests form = [] ↔
      ¬(jsTruthyNum form.selectedPatient = true ∧ jsTruthyNum form.selectedDoctor = true ∧
        form.date.isSome = true ∧ jsTrim form.timeStr ≠ "")) ∧
    (∀ p dr d, form.selectedPatient = some p → p ≠ 0 → form.selectedDoctor = some dr →
      dr ≠ 0 → form.date = some d → jsTrim form.timeStr ≠ "" →
      bookingRequests form =
        [{ patient := p, doctor := dr, date := formatISODate d, time := form.timeStr,
           reason := jsOrUndefined form.reason, status := false }]) := by
  refine ⟨?_, ?_, ?_, ?_, ?_, ?_⟩
  · rw [bookingValidation_eq]
  · rw [bookingValidation_eq]
  · rw [bookingValidation_eq]
  · rw [bookingValidation_eq]
  · obtain ⟨p, dr, dt, t, r⟩ := form
    unfold bookingRequests bookingRequest
    rw [bookingValidation_eq]
    rcases p with _ | pv <;> rcases dr with _ | drv <;> rcases dt with _ | d <;>
      by_cases ht : jsTrim t = "" <;>
      first
        | (by_cases hp0 : pv = 0 <;> by_cases hd0 : drv = 0 <;>
            simp_all [jsTruthyNum])
        | simp_all [jsTruthyNum]
  · intro pv drv d hp hdr hd hdt ht
    unfold bookingRequests bookingRequest
    rw [bookingValidation_eq]
    obtain ⟨p, dr, dt, t, r⟩ := form
    simp_all [jsTruthyNum]

/-- Claim C4, witness: a fully supplied form (with whitespace around the
time and a nonempty reason) issues exactly the expected creation call. -/
theorem appointment_form_validation_witness :
    bookingRequests
        { selectedPatient := some 7, selectedDoctor := some 3,
          date := some ⟨2025, 1, 2⟩, timeStr := " 9:30 ", reason := "checkup" } =
      [{ patient := 7, doctor := 3, date := "2025-01-02", time := " 9:30 ",
         reason := some "checkup", status := false }] := by
  have h := (appointment_form_validation
      { selectedPatient := some 7, selectedDoctor := some 3,
        date := some ⟨2025, 1, 2⟩, timeStr := " 9:30 ", reason := "checkup" }).2.2.2.2.2
      7 3 ⟨2025, 1, 2⟩ rfl (by decide) rfl (by decide) rfl (by decide)
  exact h

/-- Claim C5: tokens written by `setTokens` are exactly what the two
readers return, and after `removeTokens` both readers return the absent
value. -/
theorem tokenUtils_roundtrip (s : Store) (a r : String) :
    getAccessToken (setTokens s a r) = some a ∧
    getRefreshToken (setTokens s a r) = some r ∧
    getAccessToken (removeTokens s) = none ∧
    getRefreshToken (removeTokens s) = none := by
  refine ⟨?_, ?_, ?_, ?_⟩ <;>
    simp [getAccessToken, getRefreshToken, setTokens, removeTokens, setItem,
      removeItem, getItem]

/-- Claim C6, counterexample: with an empty-string token stored the token
is present in storage (`getAccessToken` returns it), yet the interceptor
leaves the request untouched and attaches no Authorization header. -/
theorem bearer_empty_token_cex :
    getAccessToken storeWithEmptyToken = some "" ∧
    requestInterceptor storeWithEmptyToken cfg0 = cfg0 ∧
    (requestInterceptor storeWithEmptyToken cfg0).authorization = none := by decide

/-- Claim C6, amended: a non-empty stored access token is attached as a
`Bearer` header; with no stored token, or an empty-string token, the
request config passes through unchanged — the interceptor never blocks
or short-circuits a request. -/
theorem interceptor_policy (s : Store) (c : RequestConfig) :
    (∀ t, getItem s "authToken" = some t → t ≠ "" →
        requestInterceptor s c = { c with authorization := some ("Bearer " ++ t) }) ∧
    (getItem s "authToken" = none → requestInterceptor s c = c) ∧
    (getItem s "authToken" = some "" → requestInterceptor s c = c) := by
  refine ⟨?_, ?_, ?_⟩
  · intro t ht hne
    unfold requestInterceptor
    rw [ht]
    simp [hne]
  · intro h
    unfold requestInterceptor
    rw [h]
  · intro h
    unfold requestInterceptor
    rw [h]
    simp

/-- Claim C6, witness: with the token `tok` stored, the interceptor sets
the header `Bearer tok`. -/
theorem interceptor_policy_witness :
    requestInterceptor storeWithTok cfg0 =
      { cfg0 with authorization := some ("Bearer " ++ "tok") } :=
  (interceptor_policy storeWithTok cfg0).1 "tok" rfl (by decide)

/-- Claim C7: the list responses pair each collection with its length as
the count, and reads do not change the backend state, so repeated reads
observe the same response. The backend handlers are modelled from the
spec (see `patientsGetAll`). -/
theorem getAll_count_length (s : BackendState) :
    (patientsGetAll s).patient_count = (patientsGetAll s).patients.length ∧
    (doctorsGetAll s).doctor_count = (doctorsGetAll s).doctors.length ∧
    patientsGetAll s = patientsGetAll s ∧
    doctorsGetAll s = doctorsGetAll s :=
  ⟨rfl, rfl, rfl, rfl⟩

/-- Claim C8, counterexample: with an empty-string token stored the token
is present (`getAccessToken` returns it) but `isAuthenticated` is false,
so presence alone does not characterise the result. -/
theorem isAuthenticated_empty_token_cex :
    getAccessToken storeWithEmptyToken = some "" ∧
    isAuthenticated storeWithEmptyToken = false := by decide

/-- Claim C8, amended: `isAuthenticated` is true exactly when a non-empty
access token is stored; by definition it inspects nothing else about the
token. -/
theorem isAuthenticated_presence (s : Store) :
    isAuthenticated s = true ↔ ∃ t, getItem s "authToken" = some t ∧ t ≠ "" := by
  unfold isAuthenticated
  cases h : getItem s "authToken" <;> simp [h]

/-- Claim C9: whatever the outcome of the network call, the login,
booking and patient-fetch handlers finish with their busy flag false,
mirroring the `finally` blocks. -/
theorem loading_flag_reset :
    (∀ (o : Except ApiError AuthResponse) (st : LoginUiState) (s : Store),
        ((loginCall o st s).1).isLoading = false) ∧
    (∀ (o : Except ApiError Appointment) (st : BookingUiState),
        ((bookingCall o st).1).submitting = false) ∧
    (∀ (o : Except ApiError PatientsResponse) (st : PatientsUiState),
        (fetchPatientsCall o st).loading = false) := by
  refine ⟨fun o st s => ?_, fun o st => ?_, fun o st => ?_⟩ <;> cases o <;> rfl

/-- Claim C10: an empty-string stored token is treated as absent at the
public interface: the interceptor returns the config unchanged (no
Authorization header is attached) and `isAuthenticated` is false, even
though `getAccessToken` still returns the empty string, not the absent
value. -/
theorem empty_token_absent_at_interface (s : Store) (c : RequestConfig)
    (h : getItem s "authToken" = some "") :
    requestInterceptor s c = c ∧ isAuthenticated s = false ∧
      getAccessToken s = some "" := by
  refine ⟨?_, ?_, h⟩
  · unfold requestInterceptor
    rw [h]
    simp
  · unfold isAuthenticated
    rw [h]
    simp

/-- Claim C10, witness: the theorem applied to the concrete store that
maps `authToken` to the empty string. -/
theorem empty_token_absent_at_interface_witness :
    requestInterceptor storeWithEmptyToken cfg0 = cfg0 ∧
    isAuthenticated storeWithEmptyToken = false ∧
    getAccessToken storeWithEmptyToken = some "" :=
  empty_token_absent_at_interface storeWithEmptyToken cfg0 rfl

end HMS
